import Mathlib

/-!
Verification development for the medium-api client library
(src/medium_api/medium.py).

The embedding models, from the source:
  * `MediumClient.__init__` / `MediumClient.__get_resp` (transport, retry
    policy, call counter, rate-limit snapshot fields);
  * `MediumClient.user` / `MediumClient.publication` (resource
    constructors with slug-to-id lookup);
  * `MediumClient.fetch_articles` / `MediumClient.fetch_users` (the bulk
    fetcher; the thread pool is modelled by a deterministic schedule that
    runs every submitted operation and re-raises the first failure after
    all of them have completed, matching submit-all / as_completed /
    shutdown(wait=True) semantics);
  * `MediumClient.extract_article_id` (regex scan plus urlparse path
    extraction, modelled on lists of characters);
  * the class body of `MediumClient` as a sequence of method bindings,
    with Python attribute lookup as last-binding-wins.

HTTP transport is modelled as an oracle mapping the endpoint and the
attempt index to a response; JSON bodies are modelled as association
lists of top-level keys (values abstracted to strings), mirroring the
only body operations the source performs (key-membership and key
lookup).
-/

/-- One HTTP response as seen by `__get_resp`: the numeric status, the raw
(undecoded) payload, the decoded JSON object (association list of its
top-level keys; `body` stands for `ujson.loads raw`), and the response
headers.  The source reads only `status` and the payload; it never touches
`headers`. -/
structure HttpResponse where
  status : Nat
  raw : String
  body : List (String × String)
  headers : List (String × String)
  deriving DecidableEq, Repr

/-- The mutable client state touched by `__get_resp`: the running call
counter `calls` (provided by the external AsyncHttpMixin, starting at 0)
and the three rate-limit snapshot fields set in `MediumClient.__init__`. -/
structure ClientState where
  calls : Nat
  call_counts : Option String
  call_count_limit : Option String
  remaining_calls : Option String
  deriving DecidableEq, Repr

/-- Header key stored in `__init__` as `self.call_count_key`. -/
def call_count_key : String := "x-amzn-requestid"

/-- Header key stored in `__init__` as `self.call_count_limit_key`. -/
def call_count_limit_key : String := "X-RateLimit-All-endpoints-Limit"

/-- Header key stored in `__init__` as `self.call_limit_remaining_key`. -/
def call_limit_remaining_key : String := "X-RateLimit-All-endpoints-Remaining"

/-- The client state right after `MediumClient.__init__`: the call counter
at 0 and the three snapshot fields set to `None`. -/
def mediumInit : ClientState :=
  { calls := 0
    call_counts := none
    call_count_limit := none
    remaining_calls := none }

/-- One line printed by `__get_resp`. -/
inductive LogEvent where
  | statusCode (status : Nat)
  | rawResponse (data : String)
  | errorResponse (body : List (String × String))
  deriving DecidableEq, Repr

/-- Everything observable about one `__get_resp` call: the returned pair
(`result`, `status`), the client state afterwards, the number of transport
attempts made, the list of sleep durations in order, and the log lines. -/
structure GetRespOut where
  result : List (String × String)
  status : Nat
  state : ClientState
  attempts : Nat
  sleeps : List Nat
  logs : List LogEvent
  deriving DecidableEq, Repr

/-- Mirrors the membership test of the key `error` in `json_data.keys()`. -/
def hasErrorKey (body : List (String × String)) : Bool :=
  (body.map Prod.fst).contains "error"

/-- `MediumClient.__get_resp(endpoint, retries)`.  `tr ep j` is the
response of the j-th transport attempt on endpoint `ep` (the source opens
a fresh HTTPSConnection per attempt); `i` is the index of the next
attempt; `st` is the client state.  Transcribed branch by branch:
status 200 increments `calls` and decodes the body; a body without an
error key is returned with the status; a body with an error key sleeps 5
and recurses with `retries+1` while `retries < 3`, and otherwise logs the
body and returns an empty mapping; a non-200 status logs the status and
the raw payload and returns an empty mapping at once. -/
def get_resp (tr : String → Nat → HttpResponse) (ep : String)
    (i : Nat) (retries : Nat) (st : ClientState) : GetRespOut :=
  let resp := tr ep i
  let status := resp.status
  if status = 200 then
    let st1 : ClientState := { st with calls := st.calls + 1 }
    let json_data := resp.body
    if ¬ hasErrorKey json_data then
      { result := json_data, status := status, state := st1,
        attempts := 1, sleeps := [], logs := [] }
    else if h : retries < 3 then
      let deeper := get_resp tr ep (i+1) (retries+1) st1
      { deeper with attempts := deeper.attempts + 1, sleeps := 5 :: deeper.sleeps }
    else
      { result := [], status := status, state := st1,
        attempts := 1, sleeps := [], logs := [.errorResponse json_data] }
  else
    { result := [], status := status, state := st,
      attempts := 1, sleeps := [],
      logs := [.statusCode status, .rawResponse resp.raw] }
  termination_by 3 - retries
  decreasing_by omega

/-- Number of responses with status 200 among the `n` transport attempts
`i, i+1, ..., i+n-1` on endpoint `ep`. -/
def count200 (tr : String → Nat → HttpResponse) (ep : String) (i : Nat) : Nat → Nat
  | 0 => 0
  | n+1 => (if (tr ep i).status = 200 then 1 else 0) + count200 tr ep (i+1) n

/-- A Python exception surfaced by the modelled code. -/
inductive PyError where
  | keyError (key : String)
  deriving DecidableEq, Repr

/-- The `User` handle as constructed by `MediumClient.user`: the resolved
id together with the `save_info` flag passed to the constructor.
Modelled from the spec: the handle class itself lives in
`medium_api._user`, outside `src/`; a handle is an identity plus fields
that start unpopulated. -/
structure UserHandle where
  user_id : String
  save_info : Bool
  deriving DecidableEq, Repr

/-- The `Publication` handle as constructed by `MediumClient.publication`.
Modelled from the spec, like `UserHandle`. -/
structure PublicationHandle where
  publication_id : String
  save_info : Bool
  deriving DecidableEq, Repr

/-- Outcome of a resource-constructor call: the returned value (or the
raised exception), the number of `__get_resp` transport calls the
constructor itself made, and the log lines it printed. -/
structure CtorOut (α : Type) where
  result : Except PyError (Option α)
  transportCalls : Nat
  logs : List String
  deriving Repr

/-- Log line printed by `MediumClient.user` when both identifiers are
missing. -/
def userMissingParamMsg : String :=
  "[ERROR]: Missing parameter: Please provide \"user_id\" or \"username\" to call the function"

/-- Log line printed by `MediumClient.publication` when both identifiers
are missing. -/
def publicationMissingParamMsg : String :=
  "[ERROR]: Missing parameter: Please provide \"publication_id\" or \"publication_slug\" to call this function"

/-- `MediumClient.user(username, user_id, save_info)`.  `getResp ep`
models `self.__get_resp(ep)` returning the decoded mapping and the
status.  With a `user_id` the handle is built directly (no lookup call);
otherwise a `username` triggers one lookup call to `/user/id_for/...`
followed by the unguarded subscript of the key `id` (a `KeyError` when the
key is absent); with neither, an error line is printed and `None` is
returned with no network call. -/
def MediumClient.user (getResp : String → List (String × String) × Nat)
    (username : Option String) (user_id : Option String) (save_info : Bool) :
    CtorOut UserHandle :=
  match user_id with
  | some uid =>
      { result := .ok (some ⟨uid, save_info⟩), transportCalls := 0, logs := [] }
  | none =>
      match username with
      | some un =>
          let resp := (getResp ("/user/id_for/" ++ un)).1
          match resp.lookup "id" with
          | some uid =>
              { result := .ok (some ⟨uid, save_info⟩), transportCalls := 1, logs := [] }
          | none =>
              { result := .error (.keyError "id"), transportCalls := 1, logs := [] }
      | none =>
          { result := .ok none, transportCalls := 0, logs := [userMissingParamMsg] }

/-- `MediumClient.publication(publication_slug, publication_id,
save_info)`, transcribed like `MediumClient.user`; the slug lookup hits
`/publication/id_for/...` and subscripts the key `publication_id`. -/
def MediumClient.publication (getResp : String → List (String × String) × Nat)
    (publication_slug : Option String) (publication_id : Option String) (save_info : Bool) :
    CtorOut PublicationHandle :=
  match publication_id with
  | some pid =>
      { result := .ok (some ⟨pid, save_info⟩), transportCalls := 0, logs := [] }
  | none =>
      match publication_slug with
      | some slug =>
          let resp := (getResp ("/publication/id_for/" ++ slug)).1
          match resp.lookup "publication_id" with
          | some pid =>
              { result := .ok (some ⟨pid, save_info⟩), transportCalls := 1, logs := [] }
          | none =>
              { result := .error (.keyError "publication_id"), transportCalls := 1, logs := [] }
      | none =>
          { result := .ok none, transportCalls := 0, logs := [publicationMissingParamMsg] }

/-- An `Article` handle as the bulk fetcher sees it: its identity and its
primary field `title`, which is `none` until `save_info` has populated it.
Modelled from the spec: the handle class lives in `medium_api._article`,
outside `src/`; a handle starts unpopulated and `save_info` fills its
fields.  Only `title` is read by `fetch_articles`. -/
structure Article where
  article_id : String
  title : Option String
  deriving DecidableEq, Repr

/-- A `User` handle as the bulk fetcher sees it; `fullname` is the primary
field read by `fetch_users`.  Modelled from the spec, like `Article`. -/
structure User where
  user_id : String
  fullname : Option String
  deriving DecidableEq, Repr

/-- Outcome of one bulk-fetch call: the handle list after every submitted
operation has completed (handles mutated in place by their operations),
the handles whose `save_info` was submitted to the pool (in submission
order, in their pre-call state), and the exception re-raised to the
caller, if any. -/
structure FetchOut (α ε : Type) where
  handles : List α
  submitted : List α
  raised : Option ε
  deriving Repr

/-- Runs one populate operation in place: a raising operation leaves the
handle as it was and records the exception; a succeeding one replaces the
handle with its populated state. -/
def runPopulate {α ε : Type} (op : α → Except ε α) (a : α) : α × Option ε :=
  match op a with
  | .ok a2 => (a2, none)
  | .error e => (a, some e)

/-- `MediumClient.fetch_articles(articles, content)`.  `saveInfo` and
`saveContent` are the per-handle populate operations (bound methods
`article.save_info` / `article.save_content`), each either mutating its
handle or raising.  The source submits `save_info` for exactly the
articles whose `title is None`, plus (when `content`) `save_content` for
every article, then iterates `as_completed(...).result()` inside a
`with ThreadPoolExecutor` block: every submitted operation runs to
completion (the pool is only shut down after waiting), each success stays
written into its handle, and the first observed failure is re-raised to
the caller.  The nondeterministic completion order of the pool is
modelled by the deterministic submission order. -/
def fetch_articles {ε : Type} (saveInfo saveContent : Article → Except ε Article)
    (content : Bool) (articles : List Article) : FetchOut Article ε :=
  let results := articles.map (fun a =>
    if a.title = none then runPopulate saveInfo a else (a, none))
  let afterInfo := results.map Prod.fst
  let infoErrs := (results.map Prod.snd).filterMap id
  if content then
    let cresults := afterInfo.map (runPopulate saveContent)
    { handles := cresults.map Prod.fst
      submitted := articles.filter (fun a => a.title = none)
      raised := (infoErrs ++ (cresults.map Prod.snd).filterMap id).head? }
  else
    { handles := afterInfo
      submitted := articles.filter (fun a => a.title = none)
      raised := infoErrs.head? }

/-- `MediumClient.fetch_users(users)`: like `fetch_articles` without the
content wave; `save_info` is submitted for exactly the users whose
`fullname is None`. -/
def fetch_users {ε : Type} (saveInfo : User → Except ε User)
    (users : List User) : FetchOut User ε :=
  let results := users.map (fun u =>
    if u.fullname = none then runPopulate saveInfo u else (u, none))
  { handles := results.map Prod.fst
    submitted := users.filter (fun u => u.fullname = none)
    raised := ((results.map Prod.snd).filterMap id).head? }

/-- ASCII whitespace recognized by the regex class backslash-s (the inputs
considered here are ASCII strings). -/
def isPySpace (c : Char) : Bool :=
  c = ' ' || c = '\t' || c = '\n' || c = '\r' ||
  c = Char.ofNat 11 || c = Char.ofNat 12

/-- The characters of the literal scheme `http://`. -/
def httpScheme : List Char := "http://".data

/-- The characters of the literal scheme `https://`. -/
def httpsScheme : List Char := "https://".data

/-- First match of the pattern used by `extract_article_id`: an http or
https scheme followed by at least one non-whitespace character, taken
greedily.  `re.findall` scans left to right; a position matches exactly
when the text there starts with one of the two schemes (the optional `s`
is tried greedily first) and at least one non-space character follows the
scheme; a failed position advances the scan by one character.  Only the
first match (`urls[0]`) is ever used by the source. -/
def findFirstUrl : List Char → Option (List Char)
  | [] => none
  | c :: cs =>
      let s := c :: cs
      let token := s.takeWhile (fun ch => !(isPySpace ch))
      if httpsScheme.isPrefixOf s then
        if 8 < token.length then some token else findFirstUrl cs
      else if httpScheme.isPrefixOf s then
        if 7 < token.length then some token else findFirstUrl cs
      else findFirstUrl cs

/-- The `path` component produced by `urlparse` for a URL that begins with
an http or https scheme (the only inputs this receives, by construction
of `findFirstUrl`): drop the scheme through the colon, drop the
`//`-introduced network location up to the first of `/`, `?` or `#`, then
cut the fragment (first `#`) and the query (first `?`). -/
def urlparsePath (url : List Char) : List Char :=
  let afterColon := (url.dropWhile (fun c => !(c = ':'))).drop 1
  let rest :=
    if ("//".data).isPrefixOf afterColon then
      (afterColon.drop 2).dropWhile (fun c => !(c = '/' || c = '?' || c = '#'))
    else afterColon
  (rest.takeWhile (fun c => !(c = '#'))).takeWhile (fun c => !(c = '?'))

/-- `urlparse` additionally splits parameters off the path: the last
`/`-separated segment is cut at its first `;`. -/
def stripParams (p : List Char) : List Char :=
  let segs := p.splitOn '/'
  List.intercalate ['/']
    (segs.dropLast ++ [(segs.getLastD []).takeWhile (fun c => !(c = ';'))])

/-- Mirrors Python `str.isalnum` on ASCII input: nonempty and every
character a letter or a digit. -/
def pyIsAlnum (l : List Char) : Bool :=
  !l.isEmpty && l.all Char.isAlphanum

/-- `MediumClient.extract_article_id(article_url)`: find the first
http(s) URL in the string; if there is one and its parsed path is
nonempty, take the last `/`-segment of the path, then the last
`-`-segment of that, and return it when it is alphanumeric; in every
other case return `None`. -/
def extract_article_id (article_url : List Char) : Option (List Char) :=
  match findFirstUrl article_url with
  | none => none
  | some url =>
      let urlpath := stripParams (urlparsePath url)
      if urlpath.isEmpty then none
      else
        let last_location := (urlpath.splitOn '/').getLastD []
        let article_id := (last_location.splitOn '-').getLastD []
        if pyIsAlnum article_id then some article_id else none

/-- Rough shape of what a method of the class body returns, used to tell
the two definition styles of the duplicated methods apart. -/
inductive ReturnShape where
  | handleObj
  | stringList
  | dictOrNone
  | other
  deriving DecidableEq, Repr

/-- One method definition in the class body: its non-self parameter names
in source order and the shape of its return value. -/
structure MethodDef where
  params : List String
  ret : ReturnShape
  deriving DecidableEq, Repr

/-- The method definitions executed by the `MediumClient` class body, in
source order.  A Python class body is a sequence of assignments into the
class dictionary, so a later definition under the same name overwrites an
earlier one. -/
def mediumClassBody : List (String × MethodDef) := [
  ("__init__", ⟨["rapidapi_key", "calls", "n", "p"], .other⟩),
  ("__get_resp", ⟨["endpoint", "retries"], .other⟩),
  ("user", ⟨["username", "user_id", "save_info"], .handleObj⟩),
  ("users", ⟨["username", "user_id", "save_info"], .handleObj⟩),
  ("article", ⟨["article_id", "save_info"], .handleObj⟩),
  ("publication", ⟨["publication_slug", "publication_id", "save_info"], .handleObj⟩),
  ("top_writers", ⟨["topic_slug"], .handleObj⟩),
  ("latestposts", ⟨["topic_slug"], .handleObj⟩),
  ("topfeeds", ⟨["tag", "mode"], .handleObj⟩),
  ("related_tags", ⟨["given_tag"], .stringList⟩),
  ("fetch_articles", ⟨["articles", "content"], .other⟩),
  ("fetch_users", ⟨["users"], .other⟩),
  ("extract_article_id", ⟨["article_url"], .other⟩),
  ("get_urls", ⟨["endpoint", "key", "args"], .other⟩),
  ("users_id", ⟨["username"], .dictOrNone⟩),
  ("users_info", ⟨["username", "user_id"], .dictOrNone⟩),
  ("user_articles", ⟨["username", "user_id"], .dictOrNone⟩),
  ("article_info", ⟨["article_id"], .dictOrNone⟩),
  ("article_content", ⟨["article_id"], .dictOrNone⟩),
  ("topfeeds", ⟨["tag", "mode"], .dictOrNone⟩),
  ("top_writers", ⟨["topic_slug"], .dictOrNone⟩),
  ("related_tags", ⟨["tag"], .dictOrNone⟩)]

/-- Python attribute lookup on a class dictionary built by executing the
class body in order: the last binding under a name wins. -/
def classAttr (body : List (String × MethodDef)) (name : String) : Option MethodDef :=
  ((body.filter (fun p => p.1 == name)).getLast?).map Prod.snd

/-- `self.base_url`. -/
def base_url : String := "medium2.p.rapidapi.com"

/-- `MediumClient.get_urls(endpoint, key, args)`: one absolute URL per
argument; `fmt a` stands for the template `endpoint` with the single
placeholder named `key` substituted by `a`. -/
def get_urls (fmt : String → String) (args : List String) : List String :=
  args.map (fun a => "https://" ++ base_url ++ fmt a)

/-- Mirrors the `if not isinstance(x, list): x = [x]` coercion of the
batch-style methods. -/
def coerceToList (x : String ⊕ List String) : List String :=
  match x with
  | .inl s => [s]
  | .inr l => l

/-- The URLs built by the effective (second) `related_tags`. -/
def related_tags_urls (tag : String ⊕ List String) : List String :=
  get_urls (fun t => "/related_tags/" ++ t) (coerceToList tag)

/-- The effective (second) definition of `MediumClient.related_tags`,
the one bound last in the class body: coerce `tag` to a list, run the
async pipeline (modelled as an oracle from the URL list to the list of
per-URL results), and return the dict zipping tags with results when the
pipeline result is truthy, `None` (the implicit return) otherwise. -/
def related_tags_eff {β : Type} (pipeline : List String → List β)
    (tag : String ⊕ List String) : Option (List (String × β)) :=
  let tagL := coerceToList tag
  let res := pipeline (related_tags_urls tag)
  if res.isEmpty then none else some (tagL.zip res)

/-- The URLs built by the effective (second) `topfeeds`. -/
def topfeeds_urls (tag : String ⊕ List String) (mode : String) : List String :=
  get_urls (fun t => "/topfeeds/" ++ t ++ "/" ++ mode) (coerceToList tag)

/-- The effective (second) definition of `MediumClient.topfeeds`. -/
def topfeeds_eff {β : Type} (pipeline : List String → List β)
    (tag : String ⊕ List String) (mode : String) : Option (List (String × β)) :=
  let tagL := coerceToList tag
  let res := pipeline (topfeeds_urls tag mode)
  if res.isEmpty then none else some (tagL.zip res)

/-- The URLs built by the effective (second) `top_writers`; note the
missing leading slash in the source template `top_writers/{topic_slug}`. -/
def top_writers_urls (topic_slug : String ⊕ List String) : List String :=
  get_urls (fun t => "top_writers/" ++ t) (coerceToList topic_slug)

/-- The effective (second) definition of `MediumClient.top_writers`. -/
def top_writers_eff {β : Type} (pipeline : List String → List β)
    (topic_slug : String ⊕ List String) : Option (List (String × β)) :=
  let tagL := coerceToList topic_slug
  let res := pipeline (top_writers_urls topic_slug)
  if res.isEmpty then none else some (tagL.zip res)

/-- A persistent soft-error response: status 200 with an error key in the
decoded body. -/
def softResp : HttpResponse :=
  { status := 200
    raw := "error payload"
    body := [("error", "rate limited")]
    headers := [] }

/-- A transport whose every attempt yields `softResp`. -/
def trSoft : String → Nat → HttpResponse := fun _ _ => softResp

/-- A successful response carrying the three rate-limit headers under the
exact keys configured in `__init__`, reporting limit 100 and remaining
99. -/
def okResp : HttpResponse :=
  { status := 200
    raw := "ok payload"
    body := [("id", "1")]
    headers := [(call_count_key, "req-1"),
                (call_count_limit_key, "100"),
                (call_limit_remaining_key, "99")] }

/-- A transport whose every attempt yields `okResp`. -/
def trOK : String → Nat → HttpResponse := fun _ _ => okResp

/-- A hard-failure response: status 404 with a raw body and no decodable
JSON (the source never decodes it). -/
def notFoundResp : HttpResponse :=
  { status := 404
    raw := "Not Found"
    body := []
    headers := [] }

/-- A transport whose every attempt yields `notFoundResp`. -/
def trFail : String → Nat → HttpResponse := fun _ _ => notFoundResp

/-- An already-populated article handle. -/
def exTitled : Article := { article_id := "a1", title := some "T1" }

/-- An unpopulated article handle. -/
def exUn2 : Article := { article_id := "a2", title := none }

/-- Another unpopulated article handle. -/
def exUn3 : Article := { article_id := "a3", title := none }

/-- A populate operation that always succeeds and sets the title. -/
def exOpOk : Article → Except String Article :=
  fun a => .ok { a with title := some "T" }

/-- A populate operation that raises on handle a2 and succeeds
elsewhere. -/
def exOpFail : Article → Except String Article :=
  fun a => if a.article_id = "a2" then .error "boom" else .ok { a with title := some "T" }

/-- A user populate operation that always succeeds. -/
def exOpUserOk : User → Except String User :=
  fun u => .ok { u with fullname := some "F" }

/-- Unfolding of `get_resp` on the success branch: status 200 and no
error key. -/
theorem get_resp_success (tr : String → Nat → HttpResponse) (ep : String)
    (i retries : Nat) (st : ClientState)
    (h200 : (tr ep i).status = 200) (hne : hasErrorKey (tr ep i).body = false) :
    get_resp tr ep i retries st =
      { result := (tr ep i).body, status := (tr ep i).status,
        state := { st with calls := st.calls + 1 },
        attempts := 1, sleeps := [], logs := [] } := by
  rw [get_resp]
  simp [h200, hne]

/-- Unfolding of `get_resp` on the retrying branch: status 200, error key
present, retry budget not yet exhausted. -/
theorem get_resp_soft_step (tr : String → Nat → HttpResponse) (ep : String)
    (i retries : Nat) (st : ClientState)
    (h200 : (tr ep i).status = 200) (herr : hasErrorKey (tr ep i).body = true)
    (hr : retries < 3) :
    get_resp tr ep i retries st =
      { get_resp tr ep (i+1) (retries+1) { st with calls := st.calls + 1 } with
        attempts :=
          (get_resp tr ep (i+1) (retries+1) { st with calls := st.calls + 1 }).attempts + 1,
        sleeps :=
          5 :: (get_resp tr ep (i+1) (retries+1) { st with calls := st.calls + 1 }).sleeps } := by
  rw [get_resp]
  simp [h200, herr, hr]

/-- Unfolding of `get_resp` on the giving-up branch: status 200, error key
present, `retries` at its bound 3. -/
theorem get_resp_soft_exhaust (tr : String → Nat → HttpResponse) (ep : String)
    (i retries : Nat) (st : ClientState)
    (h200 : (tr ep i).status = 200) (herr : hasErrorKey (tr ep i).body = true)
    (hr : ¬ retries < 3) :
    get_resp tr ep i retries st =
      { result := [], status := (tr ep i).status,
        state := { st with calls := st.calls + 1 },
        attempts := 1, sleeps := [],
        logs := [.errorResponse (tr ep i).body] } := by
  rw [get_resp]
  simp [h200, herr, hr]

/-- Unfolding of `get_resp` on the non-200 branch. -/
theorem get_resp_hard (tr : String → Nat → HttpResponse) (ep : String)
    (i retries : Nat) (st : ClientState)
    (h200 : ¬ (tr ep i).status = 200) :
    get_resp tr ep i retries st =
      { result := [], status := (tr ep i).status, state := st,
        attempts := 1, sleeps := [],
        logs := [.statusCode (tr ep i).status, .rawResponse (tr ep i).raw] } := by
  rw [get_resp]
  simp [h200]

/-- Master state lemma: the only state change `get_resp` ever makes is to
add to `calls` the number of status-200 responses among the attempts it
made. -/
theorem get_resp_state_eq (tr : String → Nat → HttpResponse) (ep : String) :
    ∀ n retries, 3 - retries ≤ n → ∀ i st,
      (get_resp tr ep i retries st).state =
        { st with calls := st.calls + count200 tr ep i (get_resp tr ep i retries st).attempts } := by
  intro n
  induction n with
  | zero =>
      intro retries hr i st
      have hr3 : ¬ retries < 3 := by omega
      by_cases h200 : (tr ep i).status = 200
      · by_cases herr : hasErrorKey (tr ep i).body
        · rw [get_resp_soft_exhaust tr ep i retries st h200 herr hr3]
          simp [count200, h200]
        · rw [get_resp_success tr ep i retries st h200 (by simpa using herr)]
          simp [count200, h200]
      · rw [get_resp_hard tr ep i retries st h200]
        cases st
        simp [count200, h200]
  | succ n ih =>
      intro retries hr i st
      by_cases h200 : (tr ep i).status = 200
      · by_cases herr : hasErrorKey (tr ep i).body
        · by_cases hlt : retries < 3
          · rw [get_resp_soft_step tr ep i retries st h200 herr hlt]
            have ihr := ih (retries+1) (by omega) (i+1) { st with calls := st.calls + 1 }
            simp only [count200, h200, if_pos]
            simp [ihr]
            omega
          · rw [get_resp_soft_exhaust tr ep i retries st h200 herr hlt]
            simp [count200, h200]
        · rw [get_resp_success tr ep i retries st h200 (by simpa using herr)]
          simp [count200, h200]
      · rw [get_resp_hard tr ep i retries st h200]
        cases st
        simp [count200, h200]

/-- Full evaluation of `get_resp` when every response is a soft error
(status 200 with an error key): starting from `retries = 0` there are 4
attempts, 3 sleeps of 5, a counter bump of 4, and an empty mapping with
status 200 is returned after logging the last error body. -/
theorem get_resp_all_soft (tr : String → Nat → HttpResponse) (ep : String)
    (st : ClientState)
    (h : ∀ j, (tr ep j).status = 200 ∧ hasErrorKey (tr ep j).body = true) :
    get_resp tr ep 0 0 st =
      { result := [], status := 200,
        state := { st with calls := st.calls + 4 },
        attempts := 4, sleeps := [5, 5, 5],
        logs := [.errorResponse (tr ep 3).body] } := by
  rw [get_resp_soft_step tr ep 0 0 st (h 0).1 (h 0).2 (by omega)]
  rw [get_resp_soft_step tr ep 1 1 _ (h 1).1 (h 1).2 (by omega)]
  rw [get_resp_soft_step tr ep 2 2 _ (h 2).1 (h 2).2 (by omega)]
  rw [get_resp_soft_exhaust tr ep 3 3 _ (h 3).1 (h 3).2 (by omega)]
  simp [(h 3).1]

/-- C2: for an endpoint whose responses persistently return status 200
with an error key in the body, `__get_resp` called with `retries = 0`
performs exactly 4 transport attempts, sleeps a fixed 5 time-units before
each of the 3 retries, and after exhausting the retries returns an empty
mapping (logging the error body) instead of raising. -/
theorem soft_error_retry_exhaustion (tr : String → Nat → HttpResponse) (ep : String)
    (st : ClientState)
    (h : ∀ j, (tr ep j).status = 200 ∧ hasErrorKey (tr ep j).body = true) :
    (get_resp tr ep 0 0 st).attempts = 4 ∧
    (get_resp tr ep 0 0 st).sleeps = [5, 5, 5] ∧
    (get_resp tr ep 0 0 st).result = [] ∧
    (get_resp tr ep 0 0 st).logs = [.errorResponse (tr ep 3).body] := by
  rw [get_resp_all_soft tr ep st h]
  exact ⟨rfl, rfl, rfl, rfl⟩

/-- Witness for C2 at a concrete persistent-soft-error transport. -/
theorem soft_error_retry_exhaustion_witness :
    (get_resp trSoft "/user/1" 0 0 mediumInit).attempts = 4 ∧
    (get_resp trSoft "/user/1" 0 0 mediumInit).sleeps = [5, 5, 5] ∧
    (get_resp trSoft "/user/1" 0 0 mediumInit).result = [] ∧
    (get_resp trSoft "/user/1" 0 0 mediumInit).logs = [.errorResponse softResp.body] :=
  soft_error_retry_exhaustion trSoft "/user/1" mediumInit (fun _ => ⟨rfl, rfl⟩)

/-- C3, counterexample: the call counter is incremented on soft-error
attempts as well.  Under a transport whose responses are all status 200
with an error key — so that no attempt ever returns 200 without an error
key — the counter still rises from 0 to 4, once per attempt, refuting the
claim that it is incremented only for 200-no-error calls and not for
soft-error attempts. -/
theorem call_counter_soft_error_counterexample :
    (get_resp trSoft "/user/1" 0 0 mediumInit).state.calls = 4 ∧
    (∀ j, (trSoft "/user/1" j).status = 200 ∧ hasErrorKey (trSoft "/user/1" j).body = true) ∧
    mediumInit.calls = 0 := by
  refine ⟨?_, fun _ => ⟨rfl, rfl⟩, rfl⟩
  rw [get_resp_all_soft trSoft "/user/1" mediumInit (fun _ => ⟨rfl, rfl⟩)]
  rfl

/-- C3, amended: the global call counter is incremented exactly once per
transport attempt whose response has status 200 — including soft-error
(200 with error key) attempts — and is not incremented for non-200
responses: the counter delta of any `__get_resp` call equals the number
of status-200 responses among the attempts it made. -/
theorem call_counter_per_200_attempt (tr : String → Nat → HttpResponse) (ep : String)
    (i retries : Nat) (st : ClientState) :
    (get_resp tr ep i retries st).state.calls =
      st.calls + count200 tr ep i (get_resp tr ep i retries st).attempts := by
  rw [get_resp_state_eq tr ep 3 retries (by omega) i st]

/-- C1, counterexample: after one successful (200, no error key) response
that carries the three rate-limit headers under exactly the keys
configured in `__init__` and reports limit 100 and remaining 99, the
stored snapshot fields are still `None` — the stored remaining-count does
not equal the limit reported in the headers minus 1, refuting the claim
that the client stores the header values after each successful
response. -/
theorem rate_limit_snapshot_counterexample :
    (get_resp trOK "/user/1" 0 0 mediumInit).state.calls = 1 ∧
    okResp.headers.lookup call_count_limit_key = some "100" ∧
    okResp.headers.lookup call_limit_remaining_key = some "99" ∧
    (get_resp trOK "/user/1" 0 0 mediumInit).state.remaining_calls ≠ some "99" ∧
    (get_resp trOK "/user/1" 0 0 mediumInit).state.call_count_limit = none ∧
    (get_resp trOK "/user/1" 0 0 mediumInit).state.call_counts = none := by
  rw [get_resp_success trOK "/user/1" 0 0 mediumInit rfl rfl]
  refine ⟨rfl, by decide, by decide, by decide, rfl, rfl⟩

/-- C1, amended: `__init__` stores the three header key names and sets the
snapshot fields to `None`, but `__get_resp` never reads response headers
and never updates the snapshot fields, so after any number of calls —
successful or not — the stored budget snapshot is unchanged from
initialization. -/
theorem rate_limit_snapshot_never_updated :
    mediumInit.call_counts = none ∧
    mediumInit.call_count_limit = none ∧
    mediumInit.remaining_calls = none ∧
    ∀ (tr : String → Nat → HttpResponse) (ep : String) (i retries : Nat) (st : ClientState),
      (get_resp tr ep i retries st).state.call_counts = st.call_counts ∧
      (get_resp tr ep i retries st).state.call_count_limit = st.call_count_limit ∧
      (get_resp tr ep i retries st).state.remaining_calls = st.remaining_calls := by
  refine ⟨rfl, rfl, rfl, fun tr ep i retries st => ?_⟩
  rw [get_resp_state_eq tr ep 3 retries (by omega) i st]
  exact ⟨rfl, rfl, rfl⟩

/-- C6: on a non-200 response, `__get_resp` makes exactly one transport
attempt — no retry and no sleep — leaves the client state untouched, logs
the status and the raw body, and returns an empty mapping paired with
that status. -/
theorem non200_single_attempt (tr : String → Nat → HttpResponse) (ep : String)
    (i retries : Nat) (st : ClientState)
    (h : (tr ep i).status ≠ 200) :
    get_resp tr ep i retries st =
      { result := [], status := (tr ep i).status, state := st,
        attempts := 1, sleeps := [],
        logs := [.statusCode (tr ep i).status, .rawResponse (tr ep i).raw] } :=
  get_resp_hard tr ep i retries st h

/-- Witness for C6 at a concrete 404 transport. -/
theorem non200_single_attempt_witness :
    get_resp trFail "/article/x" 0 0 mediumInit =
      { result := [], status := 404, state := mediumInit,
        attempts := 1, sleeps := [],
        logs := [.statusCode 404, .rawResponse "Not Found"] } :=
  non200_single_attempt trFail "/article/x" 0 0 mediumInit (by decide)

/-- C8: calling `user` or `publication` with neither an id nor a
slug/username prints a usage-error line at call time, returns `None`, and
makes zero transport calls. -/
theorem missing_identity_usage_error
    (getRespU getRespP : String → List (String × String) × Nat) (siU siP : Bool) :
    MediumClient.user getRespU none none siU =
      { result := .ok none, transportCalls := 0, logs := [userMissingParamMsg] } ∧
    MediumClient.publication getRespP none none siP =
      { result := .ok none, transportCalls := 0, logs := [publicationMissingParamMsg] } :=
  ⟨rfl, rfl⟩

/-- C10: when the slug-to-id lookup returns the empty degraded mapping,
`user` raises `KeyError` on the key `id` and `publication` raises
`KeyError` on the key `publication_id` after the single lookup call,
instead of returning `None` or a degraded handle. -/
theorem degraded_lookup_raises_keyerror
    (getResp : String → List (String × String) × Nat)
    (un slug : String) (siU siP : Bool)
    (hu : (getResp ("/user/id_for/" ++ un)).1 = [])
    (hp : (getResp ("/publication/id_for/" ++ slug)).1 = []) :
    (MediumClient.user getResp (some un) none siU).result = .error (.keyError "id") ∧
    (MediumClient.user getResp (some un) none siU).transportCalls = 1 ∧
    (MediumClient.publication getResp (some slug) none siP).result =
      .error (.keyError "publication_id") ∧
    (MediumClient.publication getResp (some slug) none siP).transportCalls = 1 := by
  simp [MediumClient.user, MediumClient.publication, hu, hp, List.lookup]

/-- Witness for C10 at a concrete always-failing lookup. -/
theorem degraded_lookup_raises_keyerror_witness :
    (MediumClient.user (fun _ => ([], 404)) (some "nishu-jain") none true).result =
      .error (.keyError "id") ∧
    (MediumClient.publication (fun _ => ([], 404)) (some "towards-ai") none true).result =
      .error (.keyError "publication_id") := by
  have h := degraded_lookup_raises_keyerror (fun _ => ([], 404)) "nishu-jain" "towards-ai"
    true true rfl rfl
  exact ⟨h.1, h.2.2.1⟩

/-- Evaluation of `fetch_articles` with `content = false`: the handle
list after the batch, the submitted list, and the re-raised first
failure, all in terms of the per-handle schedule. -/
theorem fetch_articles_false_eq {ε : Type}
    (saveInfo saveContent : Article → Except ε Article) (as : List Article) :
    fetch_articles saveInfo saveContent false as =
      { handles := (as.map (fun a =>
          if a.title = none then runPopulate saveInfo a else (a, none))).map Prod.fst
        submitted := as.filter (fun a => a.title = none)
        raised := (((as.map (fun a =>
          if a.title = none then runPopulate saveInfo a else (a, none))).map
            Prod.snd).filterMap id).head? } := rfl

/-- The error stream of an article batch equals the errors of the
populate operations of the submitted (title-unset) handles, in order. -/
theorem articles_errs_eq {ε : Type} (op : Article → Except ε Article) (as : List Article) :
    (((as.map (fun a => if a.title = none then runPopulate op a else (a, none))).map
        Prod.snd).filterMap id)
      = (as.filter (fun a => a.title = none)).filterMap
          (fun a => match op a with | .error e => some e | .ok _ => none) := by
  induction as with
  | nil => rfl
  | cons a t ih =>
      by_cases h : a.title = none
      · cases hop : op a with
        | ok b => simpa [h, hop, runPopulate] using ih
        | error e => simpa [h, hop, runPopulate] using ih
      · simpa [h] using ih

/-- The error stream of a user batch equals the errors of the populate
operations of the submitted (fullname-unset) handles, in order. -/
theorem users_errs_eq {ε : Type} (op : User → Except ε User) (us : List User) :
    (((us.map (fun u => if u.fullname = none then runPopulate op u else (u, none))).map
        Prod.snd).filterMap id)
      = (us.filter (fun u => u.fullname = none)).filterMap
          (fun u => match op u with | .error e => some e | .ok _ => none) := by
  induction us with
  | nil => rfl
  | cons u t ih =>
      by_cases h : u.fullname = none
      · cases hop : op u with
        | ok b => simpa [h, hop, runPopulate] using ih
        | error e => simpa [h, hop, runPopulate] using ih
      · simpa [h] using ih

/-- C4: in any batch given to `fetch_articles` or `fetch_users`, every
handle is attempted (the output has one handle per input, none starved by
a sibling failure), every submitted handle whose populate operation
succeeds ends populated with its operation result (and already-populated
handles pass through untouched), and the call re-raises exactly the first
failure among the submitted operations — `none` when all succeed — only
after the whole schedule has run, so successful results are never
discarded. -/
theorem fetch_batch_failure_surfacing {ε : Type}
    (saveInfo saveContent : Article → Except ε Article) (as : List Article)
    (saveInfoU : User → Except ε User) (us : List User) :
    ((fetch_articles saveInfo saveContent false as).handles.length = as.length) ∧
    (∀ a, a ∈ as → a.title = none → ∀ a2, saveInfo a = .ok a2 →
        a2 ∈ (fetch_articles saveInfo saveContent false as).handles) ∧
    (∀ a, a ∈ as → a.title ≠ none →
        a ∈ (fetch_articles saveInfo saveContent false as).handles) ∧
    ((fetch_articles saveInfo saveContent false as).raised =
      ((fetch_articles saveInfo saveContent false as).submitted.filterMap
        (fun a => match saveInfo a with | .error e => some e | .ok _ => none)).head?) ∧
    ((fetch_users saveInfoU us).handles.length = us.length) ∧
    (∀ u, u ∈ us → u.fullname = none → ∀ u2, saveInfoU u = .ok u2 →
        u2 ∈ (fetch_users saveInfoU us).handles) ∧
    ((fetch_users saveInfoU us).raised =
      ((fetch_users saveInfoU us).submitted.filterMap
        (fun u => match saveInfoU u with | .error e => some e | .ok _ => none)).head?) := by
  refine ⟨?_, ?_, ?_, ?_, ?_, ?_, ?_⟩
  · simp [fetch_articles_false_eq]
  · intro a ha ht a2 hop
    simp only [fetch_articles_false_eq, List.map_map, List.mem_map]
    exact ⟨a, ha, by simp [ht, runPopulate, hop]⟩
  · intro a ha ht
    simp only [fetch_articles_false_eq, List.map_map, List.mem_map]
    exact ⟨a, ha, by simp [ht]⟩
  · simp only [fetch_articles_false_eq]
    exact congrArg List.head? (articles_errs_eq saveInfo as)
  · simp [fetch_users]
  · intro u hu ht u2 hop
    simp only [fetch_users, List.map_map, List.mem_map]
    exact ⟨u, hu, by simp [ht, runPopulate, hop]⟩
  · simp only [fetch_users]
    exact congrArg List.head? (users_errs_eq saveInfoU us)

/-- Witness for C4: in a concrete 3-handle batch where one operation
raises, the successful sibling is populated in the output and the one
failure is re-raised. -/
theorem fetch_batch_failure_surfacing_witness :
    ({ article_id := "a3", title := some "T" } : Article) ∈
      (fetch_articles exOpFail exOpFail false [exTitled, exUn2, exUn3]).handles ∧
    (fetch_articles exOpFail exOpFail false [exTitled, exUn2, exUn3]).raised = some "boom" := by
  have h := fetch_batch_failure_surfacing exOpFail exOpFail [exTitled, exUn2, exUn3]
    exOpUserOk ([] : List User)
  refine ⟨h.2.1 exUn3 (by simp) rfl _ rfl, ?_⟩
  rw [h.2.2.2.1]
  rfl

/-- C5: the bulk fetcher submits a populate operation exactly for the
handles whose primary field (`title` for articles, `fullname` for users)
is still unset; on the concrete batch with one populated and two
unpopulated articles exactly 2 populate calls are dispatched; an empty
input submits nothing and returns immediately; and when populate sets the
primary field, a second `fetch_articles` over the first result submits
nothing (idempotence). -/
theorem fetch_submits_only_unset {ε : Type} :
    (∀ (saveInfo saveContent : Article → Except ε Article) (as : List Article),
        (fetch_articles saveInfo saveContent false as).submitted =
          as.filter (fun a => a.title = none)) ∧
    (∀ (saveInfoU : User → Except ε User) (us : List User),
        (fetch_users saveInfoU us).submitted =
          us.filter (fun u => u.fullname = none)) ∧
    (fetch_articles exOpOk exOpOk false [exTitled, exUn2, exUn3]).submitted.length = 2 ∧
    (∀ (saveInfo saveContent : Article → Except ε Article) (content : Bool),
        fetch_articles saveInfo saveContent content ([] : List Article) =
          { handles := [], submitted := [], raised := none }) ∧
    (∀ (saveInfoU : User → Except ε User),
        fetch_users saveInfoU ([] : List User) =
          { handles := [], submitted := [], raised := none }) ∧
    (∀ (saveInfo saveContent : Article → Except ε Article) (as : List Article),
        (∀ a, a.title = none → ∃ a2, saveInfo a = .ok a2 ∧ a2.title ≠ none) →
        (fetch_articles saveInfo saveContent false
            (fetch_articles saveInfo saveContent false as).handles).submitted = []) := by
  refine ⟨fun _ _ _ => rfl, fun _ _ => rfl, by decide, ?_, fun _ => rfl, ?_⟩
  · intro saveInfo saveContent content
    cases content <;> rfl
  · intro saveInfo saveContent as hop
    rw [fetch_articles_false_eq, fetch_articles_false_eq]
    simp only [List.map_map]
    rw [List.filter_eq_nil_iff]
    intro a ha
    simp only [List.mem_map] at ha
    obtain ⟨b, hb, rfl⟩ := ha
    by_cases hbt : b.title = none
    · obtain ⟨a2, hok, hne⟩ := hop b hbt
      simp [hbt, runPopulate, hok, hne]
    · simp [hbt]

/-- Witness for C5: the concrete 2-dispatch example and a concrete
idempotent second run that submits nothing. -/
theorem fetch_submits_only_unset_witness :
    (fetch_articles exOpOk exOpOk false
        (fetch_articles exOpOk exOpOk false [exTitled, exUn2, exUn3]).handles).submitted = [] ∧
    (fetch_articles exOpOk exOpOk false [exTitled, exUn2, exUn3]).submitted.length = 2 :=
  ⟨(fetch_submits_only_unset (ε := String)).2.2.2.2.2 exOpOk exOpOk [exTitled, exUn2, exUn3]
      (fun a _ => ⟨{ a with title := some "T" }, rfl, by simp⟩),
   (fetch_submits_only_unset (ε := String)).2.2.1⟩

/-- Scanning a string that contains neither scheme yields no URL. -/
theorem findFirstUrl_eq_none (s : List Char)
    (h7 : ¬ httpScheme <:+: s) (h8 : ¬ httpsScheme <:+: s) :
    findFirstUrl s = none := by
  induction s with
  | nil => rfl
  | cons c cs ih =>
      have hp8 : httpsScheme.isPrefixOf (c :: cs) = false := by
        rw [Bool.eq_false_iff]
        intro hx
        exact h8 (List.isPrefixOf_iff_prefix.mp hx).isInfix
      have hp7 : httpScheme.isPrefixOf (c :: cs) = false := by
        rw [Bool.eq_false_iff]
        intro hx
        exact h7 (List.isPrefixOf_iff_prefix.mp hx).isInfix
      rw [findFirstUrl]
      rw [hp8, hp7]
      simp only [Bool.false_eq_true, if_false]
      exact ih (fun hx => h7 (List.infix_cons_iff.mpr (Or.inr hx)))
        (fun hx => h8 (List.infix_cons_iff.mpr (Or.inr hx)))

/-- C9: `extract_article_id` on the documented URL ending in
`about-me-nishu-jain-562c5821b5f0` returns the trailing hyphen-separated
alphanumeric token `562c5821b5f0`; and on any string containing no
http(s) URL — no occurrence of either scheme — it returns `None`. -/
theorem extract_article_id_spec :
    extract_article_id
        "https://nishu-jain.medium.com/about-me-nishu-jain-562c5821b5f0".data =
      some "562c5821b5f0".data ∧
    ∀ s : List Char, ¬ httpScheme <:+: s → ¬ httpsScheme <:+: s →
      extract_article_id s = none := by
  refine ⟨by decide, fun s h7 h8 => ?_⟩
  rw [extract_article_id, findFirstUrl_eq_none s h7 h8]

/-- Witness for C9 at a concrete scheme-free string. -/
theorem extract_article_id_spec_witness :
    extract_article_id "just some plain text".data = none :=
  extract_article_id_spec.2 "just some plain text".data (by decide) (by decide)

/-- C7: because `topfeeds`, `top_writers` and `related_tags` are each
bound twice in the `MediumClient` class body, attribute lookup
(last-binding-wins) yields only the later batch-style definitions: the
effective `related_tags` takes the parameter `tag` (not `given_tag`) and,
like the effective `topfeeds` and `top_writers`, returns a dict zipping
each input with its pipeline result when the pipeline result is truthy
and `None` otherwise — never a list of tag strings or a handle object;
the earlier handle-style bindings are present in the body but are not
what lookup returns. -/
theorem duplicate_defs_effective_batch :
    classAttr mediumClassBody "related_tags" =
      some { params := ["tag"], ret := .dictOrNone } ∧
    classAttr mediumClassBody "topfeeds" =
      some { params := ["tag", "mode"], ret := .dictOrNone } ∧
    classAttr mediumClassBody "top_writers" =
      some { params := ["topic_slug"], ret := .dictOrNone } ∧
    ("related_tags", { params := ["given_tag"], ret := .stringList }) ∈ mediumClassBody ∧
    classAttr mediumClassBody "related_tags" ≠
      some { params := ["given_tag"], ret := .stringList } ∧
    ("topfeeds", { params := ["tag", "mode"], ret := .handleObj }) ∈ mediumClassBody ∧
    classAttr mediumClassBody "topfeeds" ≠
      some { params := ["tag", "mode"], ret := .handleObj } ∧
    ("top_writers", { params := ["topic_slug"], ret := .handleObj }) ∈ mediumClassBody ∧
    classAttr mediumClassBody "top_writers" ≠
      some { params := ["topic_slug"], ret := .handleObj } ∧
    (∀ (β : Type) (pipeline : List String → List β) (tag : String ⊕ List String),
        pipeline (related_tags_urls tag) = [] → related_tags_eff pipeline tag = none) ∧
    (∀ (β : Type) (pipeline : List String → List β) (tag : String ⊕ List String),
        pipeline (related_tags_urls tag) ≠ [] →
          related_tags_eff pipeline tag =
            some ((coerceToList tag).zip (pipeline (related_tags_urls tag)))) ∧
    (∀ (β : Type) (pipeline : List String → List β) (tag : String ⊕ List String) (mode : String),
        pipeline (topfeeds_urls tag mode) = [] → topfeeds_eff pipeline tag mode = none) ∧
    (∀ (β : Type) (pipeline : List String → List β) (tag : String ⊕ List String) (mode : String),
        pipeline (topfeeds_urls tag mode) ≠ [] →
          topfeeds_eff pipeline tag mode =
            some ((coerceToList tag).zip (pipeline (topfeeds_urls tag mode)))) ∧
    (∀ (β : Type) (pipeline : List String → List β) (topic : String ⊕ List String),
        pipeline (top_writers_urls topic) = [] → top_writers_eff pipeline topic = none) ∧
    (∀ (β : Type) (pipeline : List String → List β) (topic : String ⊕ List String),
        pipeline (top_writers_urls topic) ≠ [] →
          top_writers_eff pipeline topic =
            some ((coerceToList topic).zip (pipeline (top_writers_urls topic)))) := by
  refine ⟨by decide, by decide, by decide, by decide, by decide, by decide, by decide,
    by decide, by decide, ?_, ?_, ?_, ?_, ?_, ?_⟩
  · intro β pipeline tag h
    simp [related_tags_eff, h]
  · intro β pipeline tag h
    simp [related_tags_eff, List.isEmpty_iff, h]
  · intro β pipeline tag mode h
    simp [topfeeds_eff, h]
  · intro β pipeline tag mode h
    simp [topfeeds_eff, List.isEmpty_iff, h]
  · intro β pipeline topic h
    simp [top_writers_eff, h]
  · intro β pipeline topic h
    simp [top_writers_eff, List.isEmpty_iff, h]

/-- Witness for C7: the effective `related_tags` at a concrete tag
returns `None` under an empty pipeline result and a one-entry dict under
a one-result pipeline. -/
theorem duplicate_defs_effective_batch_witness :
    related_tags_eff (fun _ => ([] : List String)) (.inl "blockchain") = none ∧
    related_tags_eff (fun urls => urls.map (fun _ => "result")) (.inl "blockchain") =
      some [("blockchain", "result")] := by
  constructor
  · exact duplicate_defs_effective_batch.2.2.2.2.2.2.2.2.2.1 String
      (fun _ => []) (.inl "blockchain") rfl
  · have h := duplicate_defs_effective_batch.2.2.2.2.2.2.2.2.2.2.1 String
      (fun urls => urls.map (fun _ => "result")) (.inl "blockchain") (by decide)
    rw [h]
    rfl
